import Mathlib

/-!
Shallow embedding of the AIMath repository's CoreML training script
(`AITimoMath/AITimoMath/MLTraining/train_coreml_models.py`).

Numeric values that the script handles exactly (JSON numbers, string lengths,
one-hot entries) are modelled as rationals; values produced by transcendental
arithmetic (`np.exp`) or by random draws are modelled as real numbers.
Randomness (`np.random`) is modelled by an explicit generator interface whose
state is threaded through the simulation in the exact order the script draws.
-/

namespace AIMath

/-- Constant `RANDOM_SEED = 42` from the script. -/
def RANDOM_SEED : ℕ := 42

/-- IRT parameter block of a question record: the optional
`parameters.irt.{discrimination, difficulty, guessing}` JSON fields. -/
structure IrtParams where
  discrimination : Option ℚ
  difficulty : Option ℚ
  guessing : Option ℚ

/-- The optional `parameters` object of a question record, with its optional
`eloRating` and `irt` members. -/
structure QParameters where
  eloRating : Option ℚ
  irt : Option IrtParams

/-- A raw question record, as read from `timo_questions.json`:
`id`, `subject`, `difficulty`, `type`, `content.question`, optional
`parameters`. -/
structure Question where
  id : String
  subject : String
  difficulty : String
  qtype : String
  content_question : String
  parameters : Option QParameters

/-- One extracted feature row, mirroring the dict built at lines 86-100 of
`preprocess_question_data`. -/
structure FeatureRow where
  id : String
  subject_logical : ℚ
  subject_arithmetic : ℚ
  subject_numbertheory : ℚ
  subject_geometry : ℚ
  subject_combinatorics : ℚ
  difficulty : ℚ
  is_open_ended : ℚ
  question_length : ℚ
  elo_rating : ℚ
  irt_discrimination : ℚ
  irt_difficulty : ℚ
  irt_guessing : ℚ

/-- The list of the five subject names, in the order of the script's
`subject_mapping` dictionary. -/
def subjectNames : List String :=
  ["Logical Thinking", "Arithmetic", "Number Theory", "Geometry", "Combinatorics"]

/-- Dictionary lookup `subject_mapping.get(subject, [0,0,0,0,0])`: the one-hot vector for a
subject, with the all-zero vector as default for unknown subjects. -/
def subjectVec (s : String) : List ℚ :=
  if s = "Logical Thinking" then [1, 0, 0, 0, 0]
  else if s = "Arithmetic" then [0, 1, 0, 0, 0]
  else if s = "Number Theory" then [0, 0, 1, 0, 0]
  else if s = "Geometry" then [0, 0, 0, 1, 0]
  else if s = "Combinatorics" then [0, 0, 0, 0, 1]
  else [0, 0, 0, 0, 0]

/-- Dictionary lookup `difficulty_mapping.get(difficulty, 2)`: Easy 1, Medium 2, Hard 3,
Olympiad 4, default 2. -/
def difficultyMapping (d : String) : ℚ :=
  if d = "Easy" then 1
  else if d = "Medium" then 2
  else if d = "Hard" then 3
  else if d = "Olympiad" then 4
  else 2

/-- Elo extraction (lines 64-67): `parameters.eloRating` when present,
otherwise the default 1200. -/
def extractElo (q : Question) : ℚ :=
  match q.parameters with
  | none => 1200
  | some p =>
    match p.eloRating with
    | none => 1200
    | some e => e

/-- IRT extraction (lines 69-78): `parameters.irt.*` with per-field defaults
1.0 / 0.0 / 0.25 via `.get`, or all defaults when the `irt` (or whole
`parameters`) object is absent. -/
def extractIrt (q : Question) : ℚ × ℚ × ℚ :=
  match q.parameters with
  | none => (1, 0, 1/4)
  | some p =>
    match p.irt with
    | none => (1, 0, 1/4)
    | some irt =>
      (irt.discrimination.getD 1, irt.difficulty.getD 0, irt.guessing.getD (1/4))

/-- The feature row built for one question (body of the loop of
`preprocess_question_data`). -/
def extractFeatures (q : Question) : FeatureRow :=
  let subject_vec := subjectVec q.subject
  let irt := extractIrt q
  { id := q.id
    subject_logical := subject_vec.getD 0 0
    subject_arithmetic := subject_vec.getD 1 0
    subject_numbertheory := subject_vec.getD 2 0
    subject_geometry := subject_vec.getD 3 0
    subject_combinatorics := subject_vec.getD 4 0
    difficulty := difficultyMapping q.difficulty
    is_open_ended := if q.qtype = "open-ended" then 1 else 0
    question_length := q.content_question.length
    elo_rating := extractElo q
    irt_discrimination := irt.1
    irt_difficulty := irt.2.1
    irt_guessing := irt.2.2 }

/-- Function `preprocess_question_data`: one feature row per question, in order. -/
def preprocess_question_data (questions : List Question) : List FeatureRow :=
  questions.map extractFeatures

/-- Sum of the 5-element one-hot subject vector of a feature row. -/
def onehotSum (f : FeatureRow) : ℚ :=
  f.subject_logical + f.subject_arithmetic + f.subject_numbertheory +
    f.subject_geometry + f.subject_combinatorics

/-- Inner loop of `np.argmax` on a list: index of the first strictly greatest
element, scanning left to right, carrying the current best index and value. -/
def argmaxAux : List ℚ → ℕ → ℕ → ℚ → ℕ
  | [], _, best, _ => best
  | x :: xs, i, best, bestVal =>
    if bestVal < x then argmaxAux xs (i + 1) i x
    else argmaxAux xs (i + 1) best bestVal

/-- Model of `np.argmax` on a list of rationals: index of the first occurrence of the
maximum (0 on the empty list). -/
def npArgmax : List ℚ → ℕ
  | [] => 0
  | x :: xs => argmaxAux xs 1 0 x

/-- Assignment `subject_idx = np.argmax([...])` over the five one-hot columns of a
feature row (lines 130-136 and 251-257). -/
def subjectIdx (f : FeatureRow) : ℕ :=
  npArgmax [f.subject_logical, f.subject_arithmetic, f.subject_numbertheory,
    f.subject_geometry, f.subject_combinatorics]

/-- IRT two-parameter-plus-guessing formula (lines 126-127):
`prob = guess + (1 - guess) / (1 + exp(-disc * (ability - irt_diff)))`. -/
noncomputable def irtProb (guess disc ability irt_diff : ℝ) : ℝ :=
  guess + (1 - guess) / (1 + Real.exp (-(disc * (ability - irt_diff))))

/-- Probability used for the correctness draw (lines 126-138): IRT value plus
the preference boost `0.1 * subject_prefs[subject_idx]`, capped at 0.95. -/
noncomputable def probCorrect (guess disc ability irt_diff pref : ℝ) : ℝ :=
  min 0.95 (irtProb guess disc ability irt_diff + 0.1 * pref)

/-- Response time before jitter (lines 144-149):
`30 + difficulty * 5 - 10 * (1 / (1 + exp(ability))) + random_factor`. -/
noncomputable def responseTimeBase (difficulty : ℚ) (ability random_factor : ℝ) : ℝ :=
  30 + (difficulty : ℝ) * 5 - 10 * (1 / (1 + Real.exp ability)) + random_factor

/-- Simulated response time (lines 144-155): the base time multiplied by the
per-answer jitter factor. -/
noncomputable def responseTime (difficulty : ℚ) (ability random_factor jitter : ℝ) : ℝ :=
  responseTimeBase difficulty ability random_factor * jitter

/-- Deterministic model of numpy's global pseudo-random generator: a state of
type `σ` seeded by `seed`, with one stepping function per kind of draw the
script performs (`normal(0,1)`, `dirichlet(ones(5))`, `random()`,
`uniform(a,b)`). Each draw returns the value and the successor state, so a
run's draws are a function of the seed alone. -/
structure RNG (σ : Type) where
  seed : ℕ → σ
  normal : σ → ℝ × σ
  dirichlet5 : σ → (Fin 5 → ℝ) × σ
  random : σ → ℝ × σ
  uniform : ℝ → ℝ → σ → ℝ × σ

/-- Look up `subject_prefs[subject_idx]` (index into the 5-vector of
preferences; the script's index is always in 0..4). -/
def prefAt (prefs : Fin 5 → ℝ) (j : ℕ) : ℝ :=
  if h : j < 5 then prefs ⟨j, h⟩ else 0

/-- One synthetic response row, mirroring the per-response dict of lines
157-164 joined with the per-student columns added at lines 174-188
(`student_ability` and the five `subject_pref_j`). -/
structure ResponseRow where
  student_id : ℕ
  student_ability : ℝ
  question_id : String
  is_correct : ℕ
  response_time : ℝ
  difficulty : ℚ
  subject_idx : ℕ
  subject_pref_0 : ℝ
  subject_pref_1 : ℝ
  subject_pref_2 : ℝ
  subject_pref_3 : ℝ
  subject_pref_4 : ℝ

/-- Column `subject_pref_{j}` of a response row. -/
def ResponseRow.subjectPrefAt (r : ResponseRow) (j : ℕ) : ℝ :=
  match j with
  | 0 => r.subject_pref_0
  | 1 => r.subject_pref_1
  | 2 => r.subject_pref_2
  | 3 => r.subject_pref_3
  | 4 => r.subject_pref_4
  | _ => 0

/-- Inner loop of `generate_synthetic_student_data` (lines 118-164): simulate
one student's answers to every question in order, threading the generator
state through the draws in the script's order (correctness draw, then
`uniform(0,10)`, then the branch-dependent jitter draw). -/
noncomputable def simulateResponses {σ : Type} (R : RNG σ) (i : ℕ) (ability : ℝ)
    (prefs : Fin 5 → ℝ) : List FeatureRow → σ → List ResponseRow × σ
  | [], s => ([], s)
  | q :: qs, s =>
    let idx := subjectIdx q
    let prob := probCorrect (q.irt_guessing : ℝ) (q.irt_discrimination : ℝ) ability
      (q.irt_difficulty : ℝ) (prefAt prefs idx)
    let u := R.random s
    let is_correct : Bool := u.1 < prob
    let rf := R.uniform 0 10 u.2
    let jit := if is_correct then R.uniform 0.8 1.2 rf.2 else R.uniform 0.9 1.5 rf.2
    let row : ResponseRow :=
      { student_id := i
        student_ability := ability
        question_id := q.id
        is_correct := if is_correct then 1 else 0
        response_time := responseTime q.difficulty ability rf.1 jit.1
        difficulty := q.difficulty
        subject_idx := idx
        subject_pref_0 := prefAt prefs 0
        subject_pref_1 := prefAt prefs 1
        subject_pref_2 := prefAt prefs 2
        subject_pref_3 := prefAt prefs 3
        subject_pref_4 := prefAt prefs 4 }
    let rest := simulateResponses R i ability prefs qs jit.2
    (row :: rest.1, rest.2)

/-- Outer loop of `generate_synthetic_student_data` (lines 109-171): for each
student draw the ability (`normal(0,1)`) and the scaled Dirichlet preference
vector, then simulate the responses; rows are concatenated in student order,
matching the flattening of lines 173-190. -/
noncomputable def simulateStudents {σ : Type} (R : RNG σ) (qdf : List FeatureRow) :
    ℕ → ℕ → σ → List ResponseRow × σ
  | 0, _, s => ([], s)
  | k + 1, i, s =>
    let ab := R.normal s
    let pr := R.dirichlet5 ab.2
    let prefs : Fin 5 → ℝ := fun j => pr.1 j * 2
    let rows := simulateResponses R i ab.1 prefs qdf pr.2
    let rest := simulateStudents R qdf k (i + 1) rows.2
    (rows.1 ++ rest.1, rest.2)

/-- Function `generate_synthetic_student_data` with an explicit seed: seed the
generator (`np.random.seed`), then simulate `n_students` students. -/
noncomputable def generateWithSeed {σ : Type} (R : RNG σ) (seed : ℕ)
    (question_df : List FeatureRow) (n_students : ℕ) : List ResponseRow :=
  (simulateStudents R question_df n_students 0 (R.seed seed)).1

/-- Function `generate_synthetic_student_data(question_df, n_students=50)`: the script
always seeds with `RANDOM_SEED`. -/
noncomputable def generate_synthetic_student_data {σ : Type} (R : RNG σ)
    (question_df : List FeatureRow) (n_students : ℕ := 50) : List ResponseRow :=
  generateWithSeed R RANDOM_SEED question_df n_students

/-- Rows of the response table belonging to one student
(`response_df.groupby('student_id')`). -/
def studentRows (response_df : List ResponseRow) (sid : ℕ) : List ResponseRow :=
  response_df.filter (fun r => r.student_id = sid)

/-- Mean of the `is_correct` column over a group of rows. -/
noncomputable def meanCorrect (rows : List ResponseRow) : ℝ :=
  ((rows.map (fun r => (r.is_correct : ℝ))).sum) / rows.length

/-- Per-subject accuracy (lines 212-219): mean correctness over the rows with
that `subject_idx`, defaulting to 0.5 when the student has no such row. -/
noncomputable def subjectAccuracy (rows : List ResponseRow) (j : ℕ) : ℝ :=
  let subject_responses := rows.filter (fun r => r.subject_idx = j)
  if subject_responses.length = 0 then 0.5 else meanCorrect subject_responses

/-- Crude ability estimate (line 222): `mean(is_correct) * 2 - 1`. -/
noncomputable def abilityEstimate (rows : List ResponseRow) : ℝ :=
  meanCorrect rows * 2 - 1

/-- Ids of the questions the student already answered correctly (line 225). -/
def correctQuestions (rows : List ResponseRow) : List String :=
  (rows.filter (fun r => r.is_correct = 1)).map (fun r => r.question_id)

/-- Column read `group['subject_pref_j'].iloc[0]`: the preference columns of the first row
of the student's group (lines 203-209); 0 on an empty group. -/
noncomputable def firstPref (rows : List ResponseRow) (j : ℕ) : ℝ :=
  match rows with
  | [] => 0
  | r :: _ => r.subjectPrefAt j

/-- Blended recommendation score for one (student, question) pair
(lines 251-272): `0.4 * difficulty_match + 0.3 * subject_preference +
0.3 * subject_weakness` with `difficulty_match = 1 - |irt_difficulty -
ability_estimate| / 6` and `subject_weakness = 1 - subject_accuracy`. -/
noncomputable def recScore (q : FeatureRow) (ability_estimate : ℝ)
    (subject_prefs subject_accuracy : ℕ → ℝ) : ℝ :=
  let subject_idx := subjectIdx q
  let difficulty_match := 1 - |(q.irt_difficulty : ℝ) - ability_estimate| / 6
  let subject_preference := subject_prefs subject_idx
  let subject_weakness := 1 - subject_accuracy subject_idx
  0.4 * difficulty_match + 0.3 * subject_preference + 0.3 * subject_weakness

/-- One row of the recommender's target table (lines 274-278). -/
structure Recommendation where
  student_id : ℕ
  question_id : String
  recommendation_score : ℝ

/-- All scored (student, question) pairs for one student (lines 245-278):
every question not already answered correctly, in question order. -/
noncomputable def recommendationsFor (question_df : List FeatureRow) (sid : ℕ)
    (rows : List ResponseRow) : List Recommendation :=
  (question_df.filter (fun q => ¬ q.id ∈ correctQuestions rows)).map (fun q =>
    { student_id := sid
      question_id := q.id
      recommendation_score :=
        recScore q (abilityEstimate rows) (firstPref rows) (subjectAccuracy rows) })

/-- Per-student feature row of the recommender (lines 228-242). -/
structure StudentFeatures where
  student_id : ℕ
  subject_pref_0 : ℝ
  subject_pref_1 : ℝ
  subject_pref_2 : ℝ
  subject_pref_3 : ℝ
  subject_pref_4 : ℝ
  subject_acc_0 : ℝ
  subject_acc_1 : ℝ
  subject_acc_2 : ℝ
  subject_acc_3 : ℝ
  subject_acc_4 : ℝ
  ability_estimate : ℝ
  response_count : ℕ

/-- The student feature row built from one group (lines 228-242). -/
noncomputable def studentFeaturesOf (sid : ℕ) (rows : List ResponseRow) : StudentFeatures :=
  { student_id := sid
    subject_pref_0 := firstPref rows 0
    subject_pref_1 := firstPref rows 1
    subject_pref_2 := firstPref rows 2
    subject_pref_3 := firstPref rows 3
    subject_pref_4 := firstPref rows 4
    subject_acc_0 := subjectAccuracy rows 0
    subject_acc_1 := subjectAccuracy rows 1
    subject_acc_2 := subjectAccuracy rows 2
    subject_acc_3 := subjectAccuracy rows 3
    subject_acc_4 := subjectAccuracy rows 4
    ability_estimate := abilityEstimate rows
    response_count := rows.length }

/-- Distinct student ids in first-appearance order (the groupby keys; the
generator emits them already sorted ascending). -/
def studentIds (response_df : List ResponseRow) : List ℕ :=
  (response_df.map (fun r => r.student_id)).dedup

/-- Top 20 recommendations for one student (lines 286-288): sort by score
descending, keep the head. -/
noncomputable def top20 (recs : List Recommendation) : List Recommendation :=
  (recs.mergeSort (fun a b => decide (b.recommendation_score ≤ a.recommendation_score))).take 20

/-- The recommender's merged training table (lines 280-296): student feature
rows joined on `student_id` with the per-student top-20 recommendation
targets. -/
noncomputable def recommenderTrainingTable (question_df : List FeatureRow)
    (response_df : List ResponseRow) : List (StudentFeatures × Recommendation) :=
  let sids := studentIds response_df
  let student_df := sids.map (fun sid => studentFeaturesOf sid (studentRows response_df sid))
  let recommendation_targets :=
    (sids.map (fun sid =>
      top20 (recommendationsFor question_df sid (studentRows response_df sid)))).flatten
  (student_df.map (fun sf =>
    (recommendation_targets.filter (fun r => r.student_id = sf.student_id)).map
      (fun r => (sf, r)))).flatten

/-- Size of the held-out test set of `sklearn.model_selection.train_test_split`
with `test_size=0.2` on `n` rows. Modelled from scikit-learn's documented
behaviour for a float `test_size`: the number of test rows is
`ceil(test_size * n)`, here `⌈n / 5⌉ = (n + 4) / 5` in integer arithmetic. -/
def testSplitSize (n : ℕ) : ℕ :=
  (n + 4) / 5

/-- Record of one saved model artifact: its file name, description string, and
the row counts of the table it was fitted on. The fitted estimator itself is
a third-party opaque object; the pipeline's only contract is which table
feeds it, so the model artifact is represented by that table's dimensions. -/
structure TrainedModel where
  name : String
  shortDescription : String
  n_rows : ℕ
  n_test_rows : ℕ

/-- In-memory state of the pipeline: the two tables every trainer reads, and
the list of model artifacts written so far. -/
structure PipelineState where
  question_df : List FeatureRow
  response_df : List ResponseRow
  saved_models : List TrainedModel

/-- Function `train_question_recommender(question_df, response_df)`: build the merged
training table, split 80/20, fit, and save `QuestionRecommender.mlmodel`.
The tables in the state are only read, never written. -/
noncomputable def train_question_recommender (st : PipelineState) : PipelineState :=
  let table := recommenderTrainingTable st.question_df st.response_df
  { st with saved_models := st.saved_models ++
      [{ name := "QuestionRecommender.mlmodel"
         shortDescription := "Question Recommender for TIMO Math"
         n_rows := table.length
         n_test_rows := testSplitSize table.length }] }

/-- Function `train_ability_estimator(response_df)`: the feature/target table is the
response table itself (selected columns), split 80/20, fit, and save
`AbilityEstimator.mlmodel`. -/
noncomputable def train_ability_estimator (st : PipelineState) : PipelineState :=
  { st with saved_models := st.saved_models ++
      [{ name := "AbilityEstimator.mlmodel"
         shortDescription := "Student Ability Estimator for TIMO Math"
         n_rows := st.response_df.length
         n_test_rows := testSplitSize st.response_df.length }] }

/-- One row of the difficulty predictor's table (lines 398-418). -/
structure DifficultyFeatureRow where
  student_ability : ℝ
  subject_idx : ℕ
  subject_pref : ℝ
  irt_discrimination : ℚ
  irt_difficulty : ℚ
  irt_guessing : ℚ
  is_open_ended : ℚ
  question_length : ℚ
  perceived_difficulty : ℝ

/-- The difficulty-predictor feature row for one response (lines 398-418):
question features are looked up by id in the question table (the script's
`.iloc[0]`, which in a well-formed run always finds the question; a response
whose question id is absent is dropped rather than raising). -/
noncomputable def difficultyRowOf (question_df : List FeatureRow) (r : ResponseRow) :
    Option DifficultyFeatureRow :=
  match question_df.find? (fun q => q.id == r.question_id) with
  | none => none
  | some q => some
    { student_ability := r.student_ability
      subject_idx := r.subject_idx
      subject_pref := r.subjectPrefAt r.subject_idx
      irt_discrimination := q.irt_discrimination
      irt_difficulty := q.irt_difficulty
      irt_guessing := q.irt_guessing
      is_open_ended := q.is_open_ended
      question_length := q.question_length
      perceived_difficulty := if ¬ r.is_correct = 1 ∨ 30 < r.response_time then 1 else 0 }

/-- The difficulty predictor's full table (lines 396-421). -/
noncomputable def difficultyTable (question_df : List FeatureRow)
    (response_df : List ResponseRow) : List DifficultyFeatureRow :=
  response_df.filterMap (difficultyRowOf question_df)

/-- Function `train_difficulty_predictor(question_df, response_df)`: build the
per-response table, split 80/20, fit, and save `DifficultyPredictor.mlmodel`. -/
noncomputable def train_difficulty_predictor (st : PipelineState) : PipelineState :=
  let table := difficultyTable st.question_df st.response_df
  { st with saved_models := st.saved_models ++
      [{ name := "DifficultyPredictor.mlmodel"
         shortDescription := "Question Difficulty Predictor for TIMO Math"
         n_rows := table.length
         n_test_rows := testSplitSize table.length }] }

/-- Possible outcomes of the `try` block of `load_question_data` (lines
31-35): the file may be unreadable, its contents may fail to parse as JSON,
or it parses but the top-level `questions` key may be absent; otherwise the
parsed question list is available. -/
inductive LoadOutcome where
  | fileMissing : LoadOutcome
  | invalidJson : LoadOutcome
  | parsed : Option (List Question) → LoadOutcome

/-- Function `load_question_data`: any exception raised inside the `try` block
(missing file, JSON parse error, `KeyError` on `data['questions']`) is
caught, logged, and turned into the empty list (lines 36-38). -/
def load_question_data : LoadOutcome → List Question
  | .fileMissing => []
  | .invalidJson => []
  | .parsed none => []
  | .parsed (some qs) => qs

/-- A concrete question record whose subject is none of the five enumerated
subjects. -/
def unknownSubjectQuestion : Question :=
  { id := "q-unknown"
    subject := "Physics"
    difficulty := "Easy"
    qtype := "multiple-choice"
    content_question := "What is 2 + 2?"
    parameters := none }

/-- A concrete question record with an enumerated subject. -/
def geometryQuestion : Question :=
  { id := "q-geometry"
    subject := "Geometry"
    difficulty := "Hard"
    qtype := "open-ended"
    content_question := "Find the area."
    parameters := none }

/-- A concrete Logical Thinking question record. -/
def logicalThinkingQuestion : Question :=
  { id := "q-logical"
    subject := "Logical Thinking"
    difficulty := "Medium"
    qtype := "multiple-choice"
    content_question := "Which comes next?"
    parameters := none }

/-- A concrete question record with no `parameters` field at all. -/
def noParamsQuestion : Question :=
  { id := "q-noparams"
    subject := "Arithmetic"
    difficulty := "Medium"
    qtype := "multiple-choice"
    content_question := "What is 1 + 1?"
    parameters := none }

/-- The feature row of the concrete Logical Thinking question. -/
def sampleFeatureRow : FeatureRow :=
  extractFeatures logicalThinkingQuestion

/-- A concrete trivial instance of the generator interface, with unit state. -/
noncomputable def constRNG : RNG Unit :=
  { seed := fun _ => ()
    normal := fun s => (0, s)
    dirichlet5 := fun s => (fun _ => 1/5, s)
    random := fun s => (1/2, s)
    uniform := fun a _ s => (a, s) }

/-- C1: for every fixed seed, running the synthetic response generation twice
with the same seed and the same question set produces identical response
tables (same rows, same values, same order). In the embedding the generator's
draws are a deterministic function of the seed, so the whole table is a
function of (seed, question set, population size). -/
theorem generate_synthetic_deterministic {σ : Type} (R : RNG σ) (seed₁ seed₂ : ℕ)
    (qdf₁ qdf₂ : List FeatureRow) (n : ℕ) (hseed : seed₁ = seed₂) (hq : qdf₁ = qdf₂) :
    generateWithSeed R seed₁ qdf₁ n = generateWithSeed R seed₂ qdf₂ n := by
  subst hseed
  subst hq
  rfl

/-- Witness for C1 at a concrete generator, seed and question set. -/
theorem generate_synthetic_deterministic_witness :
    generateWithSeed constRNG RANDOM_SEED [sampleFeatureRow] 2
      = generateWithSeed constRNG RANDOM_SEED [sampleFeatureRow] 2 :=
  generate_synthetic_deterministic constRNG RANDOM_SEED RANDOM_SEED
    [sampleFeatureRow] [sampleFeatureRow] 2 rfl rfl

/-- C2 counterexample: a question whose subject is not one of the five
enumerated subjects gets the all-zero one-hot vector, which sums to 0, not 1. -/
theorem onehot_sum_counterexample :
    onehotSum (extractFeatures unknownSubjectQuestion) ≠ 1 := by
  simp [onehotSum, extractFeatures, subjectVec, unknownSubjectQuestion]

/-- C2 (amended): for every question record whose subject is one of the five
enumerated subjects, the 5-element one-hot subject vector in the resulting
feature row sums to exactly 1. -/
theorem onehot_sum_one_of_known_subject (q : Question) (h : q.subject ∈ subjectNames) :
    onehotSum (extractFeatures q) = 1 := by
  simp only [subjectNames, List.mem_cons, List.not_mem_nil, or_false] at h
  rcases h with h | h | h | h | h <;>
    simp [onehotSum, extractFeatures, subjectVec, h]

/-- Witness for C2 at a concrete Geometry question. -/
theorem onehot_sum_one_of_known_subject_witness :
    onehotSum (extractFeatures geometryQuestion) = 1 :=
  onehot_sum_one_of_known_subject geometryQuestion (by decide)

/-- C3 counterexample: with a negative guessing parameter from the question
data (here guessing = -5, discrimination = 0) the drawn probability is
negative, so it does not always lie in [0, 1]. -/
theorem probCorrect_counterexample :
    probCorrect (-5) 0 0 0 0 < 0 := by
  have h0 : (-(0 * ((0 : ℝ) - 0))) = 0 := by norm_num
  unfold probCorrect irtProb
  rw [h0, Real.exp_zero]
  rw [min_lt_iff]
  right
  norm_num

/-- C3 (amended): the probability used for the correctness draw equals the
item-response value `guess + (1-guess)/(1+exp(-disc*(ability-irt_diff)))`
plus a boost of `0.1 *` the student's preference for the question's subject,
capped at 0.95; and it lies in [0, 1] whenever the question's guessing
parameter and the preference are non-negative (as they are for the default
guessing 0.25 and the Dirichlet-drawn preferences). -/
theorem probCorrect_spec (guess disc ability irt_diff pref : ℝ)
    (hg : 0 ≤ guess) (hp : 0 ≤ pref) :
    probCorrect guess disc ability irt_diff pref
      = min 0.95 (guess + (1 - guess) / (1 + Real.exp (-(disc * (ability - irt_diff))))
          + 0.1 * pref)
    ∧ 0 ≤ probCorrect guess disc ability irt_diff pref
    ∧ probCorrect guess disc ability irt_diff pref ≤ 1 := by
  have hE : 0 < Real.exp (-(disc * (ability - irt_diff))) := Real.exp_pos _
  have h1E : 0 < 1 + Real.exp (-(disc * (ability - irt_diff))) := by linarith
  have hs0 : 0 < 1 / (1 + Real.exp (-(disc * (ability - irt_diff)))) := by positivity
  have hs1 : 1 / (1 + Real.exp (-(disc * (ability - irt_diff)))) ≤ 1 := by
    rw [div_le_one h1E]
    linarith
  refine ⟨rfl, ?_, ?_⟩
  · have key : 0 ≤ guess + (1 - guess) / (1 + Real.exp (-(disc * (ability - irt_diff)))) := by
      have hrw : (1 - guess) / (1 + Real.exp (-(disc * (ability - irt_diff))))
          = (1 - guess) * (1 / (1 + Real.exp (-(disc * (ability - irt_diff))))) := by
        ring
      rw [hrw]
      nlinarith
    unfold probCorrect irtProb
    apply le_min (by norm_num)
    nlinarith
  · unfold probCorrect
    calc probCorrect guess disc ability irt_diff pref
        ≤ 0.95 := min_le_left _ _
      _ ≤ 1 := by norm_num

/-- Witness for C3 (amended) at the default guessing 0.25 and a concrete
preference. -/
theorem probCorrect_spec_witness :
    (0 : ℝ) ≤ 0.25 ∧ (0 : ℝ) ≤ 0.5
    ∧ 0 ≤ probCorrect 0.25 1 0 0 0.5 ∧ probCorrect 0.25 1 0 0 0.5 ≤ 1 :=
  ⟨by norm_num, by norm_num, (probCorrect_spec 0.25 1 0 0 0.5 (by norm_num) (by norm_num)).2⟩

/-- C4: for every (student, not-yet-correctly-answered question) pair, the
recommendation score equals `0.4 * difficulty_match + 0.3 * subject_preference
+ 0.3 * subject_weakness`, where `difficulty_match = 1 - |irt_difficulty -
ability_estimate| / 6`; and whenever difficulty_match, subject_preference and
subject_weakness each lie in [0, 1], the score lies in [0, 1]. -/
theorem recScore_spec (q : FeatureRow) (est : ℝ) (prefs acc : ℕ → ℝ)
    (hdm0 : 0 ≤ 1 - |(q.irt_difficulty : ℝ) - est| / 6)
    (hdm1 : 1 - |(q.irt_difficulty : ℝ) - est| / 6 ≤ 1)
    (hsp0 : 0 ≤ prefs (subjectIdx q)) (hsp1 : prefs (subjectIdx q) ≤ 1)
    (hsw0 : 0 ≤ 1 - acc (subjectIdx q)) (hsw1 : 1 - acc (subjectIdx q) ≤ 1) :
    recScore q est prefs acc
      = 0.4 * (1 - |(q.irt_difficulty : ℝ) - est| / 6) + 0.3 * prefs (subjectIdx q)
        + 0.3 * (1 - acc (subjectIdx q))
    ∧ 0 ≤ recScore q est prefs acc ∧ recScore q est prefs acc ≤ 1 := by
  refine ⟨rfl, ?_, ?_⟩
  · show 0 ≤ 0.4 * (1 - |(q.irt_difficulty : ℝ) - est| / 6) + 0.3 * prefs (subjectIdx q)
      + 0.3 * (1 - acc (subjectIdx q))
    linarith
  · show 0.4 * (1 - |(q.irt_difficulty : ℝ) - est| / 6) + 0.3 * prefs (subjectIdx q)
      + 0.3 * (1 - acc (subjectIdx q)) ≤ 1
    linarith

/-- Witness for C4 at a concrete question row, ability estimate, preference
and accuracy functions. -/
theorem recScore_spec_witness :
    0 ≤ recScore sampleFeatureRow 0 (fun _ => 1/2) (fun _ => 1/2)
    ∧ recScore sampleFeatureRow 0 (fun _ => 1/2) (fun _ => 1/2) ≤ 1 :=
  (recScore_spec sampleFeatureRow 0 (fun _ => 1/2) (fun _ => 1/2)
    (by norm_num [sampleFeatureRow, extractFeatures, extractIrt, logicalThinkingQuestion])
    (by norm_num [sampleFeatureRow, extractFeatures, extractIrt, logicalThinkingQuestion])
    (by norm_num) (by norm_num) (by norm_num) (by norm_num)).2

/-- C5 counterexample: on a 3-row table the held-out split has
`ceil(0.2 * 3) = 1` row, which is not exactly 20% of 3. -/
theorem testSplitSize_counterexample :
    ¬ ((testSplitSize 3 : ℚ) = 3 * (2 / 10)) := by
  norm_num [testSplitSize]

/-- C5 (amended): for every non-empty training table of `n` rows, each
trainer's held-out test split has `⌈0.2 * n⌉` rows (characterized by
`n ≤ 5 * size < n + 5`), which is exactly 20% of the rows precisely when `n`
is a multiple of 5. -/
theorem testSplitSize_spec (n : ℕ) (h : 0 < n) :
    n ≤ 5 * testSplitSize n ∧ 5 * testSplitSize n < n + 5
    ∧ (testSplitSize n * 5 = n ↔ 5 ∣ n) := by
  unfold testSplitSize
  omega

/-- Witness for C5 (amended) at a 10-row table. -/
theorem testSplitSize_spec_witness :
    10 ≤ 5 * testSplitSize 10 ∧ 5 * testSplitSize 10 < 10 + 5
    ∧ (testSplitSize 10 * 5 = 10 ↔ 5 ∣ 10) :=
  testSplitSize_spec 10 (by norm_num)

/-- C6: for every generated response row, the simulated response time is
non-negative, given that the question's difficulty value is in {1,2,3,4}
(and the documented ranges of the two uniform draws: `random_factor` from
`uniform(0,10)` and the jitter from `uniform(0.8,1.2)` or `uniform(0.9,1.5)`). -/
theorem responseTime_nonneg (difficulty : ℚ) (ability random_factor jitter : ℝ)
    (hd : difficulty = 1 ∨ difficulty = 2 ∨ difficulty = 3 ∨ difficulty = 4)
    (hr : 0 ≤ random_factor) (hj : 0.8 ≤ jitter) :
    0 ≤ responseTime difficulty ability random_factor jitter := by
  have hd1 : (1 : ℝ) ≤ (difficulty : ℝ) := by
    rcases hd with h | h | h | h <;> rw [h] <;> norm_num
  have hE : 0 < Real.exp ability := Real.exp_pos _
  have h1E : 0 < 1 + Real.exp ability := by linarith
  have hfrac : 1 / (1 + Real.exp ability) < 1 := by
    rw [div_lt_one h1E]
    linarith
  have hbase : 0 < responseTimeBase difficulty ability random_factor := by
    unfold responseTimeBase
    linarith
  unfold responseTime
  exact mul_nonneg hbase.le (by linarith)

/-- Witness for C6 at a concrete Medium-difficulty response. -/
theorem responseTime_nonneg_witness :
    ((2 : ℚ) = 1 ∨ (2 : ℚ) = 2 ∨ (2 : ℚ) = 3 ∨ (2 : ℚ) = 4)
    ∧ 0 ≤ responseTime 2 0 1 1 :=
  ⟨by norm_num, responseTime_nonneg 2 0 1 1 (by norm_num) (by norm_num) (by norm_num)⟩

/-- C7: every question record with no `parameters` field at all yields
`irt_discrimination = 1.0`, `irt_difficulty = 0.0`, `irt_guessing = 0.25`
and `elo_rating = 1200` in its extracted feature row. -/
theorem missing_parameters_defaults (q : Question) (h : q.parameters = none) :
    (extractFeatures q).irt_discrimination = 1
    ∧ (extractFeatures q).irt_difficulty = 0
    ∧ (extractFeatures q).irt_guessing = 0.25
    ∧ (extractFeatures q).elo_rating = 1200 := by
  refine ⟨?_, ?_, ?_, ?_⟩ <;> simp [extractFeatures, extractIrt, extractElo, h] <;> norm_num

/-- Witness for C7 at a concrete question without `parameters`. -/
theorem missing_parameters_defaults_witness :
    (extractFeatures noParamsQuestion).irt_discrimination = 1
    ∧ (extractFeatures noParamsQuestion).irt_difficulty = 0
    ∧ (extractFeatures noParamsQuestion).irt_guessing = 0.25
    ∧ (extractFeatures noParamsQuestion).elo_rating = 1200 :=
  missing_parameters_defaults noParamsQuestion rfl

/-- C8: when loading the input file fails for any reason (missing file,
invalid JSON, or missing `questions` key), `load_question_data` returns the
empty collection instead of raising the error to its caller. -/
theorem load_failure_returns_empty (o : LoadOutcome)
    (h : o = LoadOutcome.fileMissing ∨ o = LoadOutcome.invalidJson
      ∨ o = LoadOutcome.parsed none) :
    load_question_data o = [] := by
  rcases h with h | h | h <;> subst h <;> rfl

/-- Witness for C8 at the missing-file outcome. -/
theorem load_failure_returns_empty_witness :
    load_question_data LoadOutcome.fileMissing = [] :=
  load_failure_returns_empty LoadOutcome.fileMissing (Or.inl rfl)

/-- C9: no trainer mutates the in-memory question feature table or the
response table it reads: after each of the three training functions runs,
`question_df` and `response_df` are unchanged. -/
theorem trainers_do_not_mutate_tables (st : PipelineState) :
    (train_question_recommender st).question_df = st.question_df
    ∧ (train_question_recommender st).response_df = st.response_df
    ∧ (train_ability_estimator st).question_df = st.question_df
    ∧ (train_ability_estimator st).response_df = st.response_df
    ∧ (train_difficulty_predictor st).question_df = st.question_df
    ∧ (train_difficulty_predictor st).response_df = st.response_df :=
  ⟨rfl, rfl, rfl, rfl, rfl, rfl⟩

/-- C10: every question record whose subject is not one of the five
enumerated subjects gets the all-zero one-hot vector (sum 0), and the
generator's `np.argmax` then assigns it `subject_idx = 0` — the same index a
Logical Thinking question gets — so in response rows the two are
indistinguishable. -/
theorem unknown_subject_indistinguishable (q q' : Question)
    (h : ¬ q.subject ∈ subjectNames) (h' : q'.subject = "Logical Thinking") :
    subjectVec q.subject = [0, 0, 0, 0, 0]
    ∧ onehotSum (extractFeatures q) = 0
    ∧ subjectIdx (extractFeatures q) = 0
    ∧ subjectIdx (extractFeatures q') = 0 := by
  simp only [subjectNames, List.mem_cons, List.not_mem_nil, or_false, not_or] at h
  obtain ⟨h1, h2, h3, h4, h5⟩ := h
  have hv : subjectVec q.subject = [0, 0, 0, 0, 0] := by
    simp [subjectVec, h1, h2, h3, h4, h5]
  refine ⟨hv, ?_, ?_, ?_⟩
  · simp [onehotSum, extractFeatures, hv]
  · have : subjectIdx (extractFeatures q) = npArgmax [0, 0, 0, 0, 0] := by
      simp [subjectIdx, extractFeatures, hv]
    rw [this]
    decide
  · have : subjectIdx (extractFeatures q') = npArgmax [1, 0, 0, 0, 0] := by
      simp [subjectIdx, extractFeatures, subjectVec, h']
    rw [this]
    decide

/-- Witness for C10 at a concrete unknown-subject question ("Physics") and a
concrete Logical Thinking question. -/
theorem unknown_subject_indistinguishable_witness :
    subjectVec unknownSubjectQuestion.subject = [0, 0, 0, 0, 0]
    ∧ onehotSum (extractFeatures unknownSubjectQuestion) = 0
    ∧ subjectIdx (extractFeatures unknownSubjectQuestion) = 0
    ∧ subjectIdx (extractFeatures logicalThinkingQuestion) = 0 :=
  unknown_subject_indistinguishable unknownSubjectQuestion logicalThinkingQuestion
    (by decide) rfl

end AIMath
